import Mathlib

/-!
Shallow embedding of the Authentication-System core (`src/Auth.js`).

The JavaScript core owns two insertion-ordered maps, `userTable` and
`sessionTable`, both keyed by email, and exposes four operations:
`signup`, `login`, `changePassword`, `logout`, plus two utilities:
`hashPassword` (SHA-256 rendered as lowercase hex) and `generateToken`
(32 characters drawn from the 62-character alphanumeric alphabet using
an index source).

JavaScript `Map` is modelled as an association list with `Map.set`
semantics (replace in place when the key is present, append otherwise).
`crypto.subtle.digest` with algorithm SHA-256 is modelled by a full
implementation of SHA-256 over the UTF-8 bytes of the input, with
32-bit words represented as `Nat` reduced modulo `2 ^ 32`.
`Math.random()`-based index drawing in `generateToken` is modelled by an
index oracle `rand : Nat → Fin 62`: the JavaScript expression
`Math.floor(Math.random() * 62)` always yields an integer in `0..61`.
Mutation of the two maps is modelled by explicit state passing: each
operation takes the current state and returns the result paired with
the successor state.
-/

/-- JavaScript `Map` with string keys: an insertion-ordered association list. -/
abbrev Table (α : Type) : Type := List (String × α)

/-- JavaScript `Map.prototype.get`: first binding of the key, if any. -/
def Table.get {α : Type} : Table α → String → Option α
  | [], _ => none
  | (k, v) :: rest, key => if k = key then some v else Table.get rest key

/-- JavaScript `Map.prototype.has`. -/
def Table.has {α : Type} (t : Table α) (key : String) : Bool :=
  (t.get key).isSome

/-- JavaScript `Map.prototype.set`: replace in place if present, else append. -/
def Table.set {α : Type} : Table α → String → α → Table α
  | [], key, v => [(key, v)]
  | (k, w) :: rest, key, v =>
      if k = key then (key, v) :: rest else (k, w) :: Table.set rest key v

/-- The `User` class of `src/Auth.js`: the `password` field stores the digest. -/
structure User where
  name : String
  password : String
  role : String
deriving DecidableEq

/-- The `Session` class of `src/Auth.js`. -/
structure Session where
  token : String
  loggedIn : Bool
deriving DecidableEq

/-- The result objects returned by the four operations: absent fields are `none`. -/
structure Result where
  success : Bool
  error : Option String := none
  message : Option String := none
  token : Option String := none
  email : Option String := none
  data : Option User := none
deriving DecidableEq

/-- The state owned by the `Auth` class: its two tables. -/
structure Auth where
  userTable : Table User
  sessionTable : Table Session
deriving DecidableEq

/-! ### SHA-256 (the `crypto.subtle.digest('SHA-256', ·)` call in `hashPassword`)

Words are `Nat` kept below `2 ^ 32`; messages are lists of byte values. -/

/-- The 32-bit modulus. -/
def w32 : Nat := 4294967296

/-- Right rotation of a 32-bit word by `k`. -/
def rotr (k n : Nat) : Nat := (n / 2 ^ k + n % 2 ^ k * 2 ^ (32 - k)) % w32

/-- Logical right shift of a 32-bit word by `k`. -/
def shr (k n : Nat) : Nat := n / 2 ^ k

/-- SHA-256 big sigma 0. -/
def bsig0 (x : Nat) : Nat := Nat.xor (Nat.xor (rotr 2 x) (rotr 13 x)) (rotr 22 x)

/-- SHA-256 big sigma 1. -/
def bsig1 (x : Nat) : Nat := Nat.xor (Nat.xor (rotr 6 x) (rotr 11 x)) (rotr 25 x)

/-- SHA-256 small sigma 0. -/
def ssig0 (x : Nat) : Nat := Nat.xor (Nat.xor (rotr 7 x) (rotr 18 x)) (shr 3 x)

/-- SHA-256 small sigma 1. -/
def ssig1 (x : Nat) : Nat := Nat.xor (Nat.xor (rotr 17 x) (rotr 19 x)) (shr 10 x)

/-- SHA-256 choice function; complement is xor with `2 ^ 32 - 1`. -/
def chf (x y z : Nat) : Nat :=
  Nat.xor (Nat.land x y) (Nat.land (Nat.xor x (w32 - 1)) z)

/-- SHA-256 majority function. -/
def majf (x y z : Nat) : Nat :=
  Nat.xor (Nat.xor (Nat.land x y) (Nat.land x z)) (Nat.land y z)

/-- The 64 SHA-256 round constants. -/
def k256 : List Nat :=
  [1116352408, 1899447441, 3049323471, 3921009573, 961987163,
   1508970993, 2453635748, 2870763221, 3624381080, 310598401,
   607225278, 1426881987, 1925078388, 2162078206, 2614888103,
   3248222580, 3835390401, 4022224774, 264347078, 604807628,
   770255983, 1249150122, 1555081692, 1996064986, 2554220882,
   2821834349, 2952996808, 3210313671, 3336571891, 3584528711,
   113926993, 338241895, 666307205, 773529912, 1294757372,
   1396182291, 1695183700, 1986661051, 2177026350, 2456956037,
   2730485921, 2820302411, 3259730800, 3345764771, 3516065817,
   3600352804, 4094571909, 275423344, 430227734, 506948616,
   659060556, 883997877, 958139571, 1322822218, 1537002063,
   1747873779, 1955562222, 2024104815, 2227730452, 2361852424,
   2428436474, 2756734187, 3204031479, 3329325298]

/-- An eight-word SHA-256 state. -/
structure Hash8 where
  a : Nat
  b : Nat
  c : Nat
  d : Nat
  e : Nat
  f : Nat
  g : Nat
  h : Nat
deriving DecidableEq

/-- The SHA-256 initial hash value. -/
def initH : Hash8 :=
  ⟨1779033703, 3144134277, 1013904242, 2773480762,
   1359893119, 2600822924, 528734635, 1541459225⟩

/-- Pack a 64-byte block into 16 big-endian 32-bit words. -/
def toWords (block : List Nat) : List Nat :=
  (List.range 16).map fun i =>
    block.getD (4 * i) 0 * 16777216 + block.getD (4 * i + 1) 0 * 65536 +
      block.getD (4 * i + 2) 0 * 256 + block.getD (4 * i + 3) 0

/-- Extend 16 words to the 64-word SHA-256 message schedule. -/
def schedule (ws : List Nat) : List Nat :=
  (List.range 48).foldl
    (fun w i =>
      w ++ [(ssig1 (w.getD (i + 14) 0) + w.getD (i + 9) 0 +
             ssig0 (w.getD (i + 1) 0) + w.getD i 0) % w32])
    ws

/-- One SHA-256 round. -/
def roundStep (st : Hash8) (ki wi : Nat) : Hash8 :=
  let t1 := (st.h + bsig1 st.e + chf st.e st.f st.g + ki + wi) % w32
  let t2 := (bsig0 st.a + majf st.a st.b st.c) % w32
  ⟨(t1 + t2) % w32, st.a, st.b, st.c, (st.d + t1) % w32, st.e, st.f, st.g⟩

/-- SHA-256 compression of one 64-byte block. -/
def compress (st : Hash8) (block : List Nat) : Hash8 :=
  let w := schedule (toWords block)
  let r := (List.range 64).foldl
    (fun s i => roundStep s (k256.getD i 0) (w.getD i 0)) st
  ⟨(st.a + r.a) % w32, (st.b + r.b) % w32, (st.c + r.c) % w32,
   (st.d + r.d) % w32, (st.e + r.e) % w32, (st.f + r.f) % w32,
   (st.g + r.g) % w32, (st.h + r.h) % w32⟩

/-- SHA-256 padding: a 0x80 byte, zeros, then the 64-bit big-endian bit length. -/
def padMessage (msg : List Nat) : List Nat :=
  let L := msg.length
  let zeros := (120 - (L + 1) % 64) % 64
  msg ++ [128] ++ List.replicate zeros 0 ++
    (List.range 8).map fun i => 8 * L / 2 ^ (8 * (7 - i)) % 256

/-- SHA-256 of a byte list: pad, split into 64-byte blocks, fold compression. -/
def sha256 (msg : List Nat) : Hash8 :=
  let p := padMessage msg
  ((List.range (p.length / 64)).map fun i => (p.drop (64 * i)).take 64).foldl
    compress initH

/-- Big-endian bytes of a 32-bit word. -/
def wordBytes (x : Nat) : List Nat :=
  [x / 16777216 % 256, x / 65536 % 256, x / 256 % 256, x % 256]

/-- The 32 digest bytes of a final SHA-256 state. -/
def digestBytes (st : Hash8) : List Nat :=
  wordBytes st.a ++ wordBytes st.b ++ wordBytes st.c ++ wordBytes st.d ++
    wordBytes st.e ++ wordBytes st.f ++ wordBytes st.g ++ wordBytes st.h

/-- Lowercase hexadecimal digit for `n < 16`. -/
def hexDigit (n : Nat) : Char :=
  Char.ofNat (if n < 10 then 48 + n else 87 + n)

/-- The two lowercase hex characters of a byte, as `b.toString(16).padStart(2, '0')`
renders a byte value in JavaScript. -/
def byteHex (b : Nat) : List Char :=
  [hexDigit (b / 16 % 16), hexDigit (b % 16)]

/-- UTF-8 encoding of a string (the `TextEncoder` step of `hashPassword`). -/
def utf8Bytes (s : String) : List Nat :=
  s.data.flatMap fun c =>
    let n := c.toNat
    if n < 128 then [n]
    else if n < 2048 then [192 + n / 64, 128 + n % 64]
    else if n < 65536 then [224 + n / 4096, 128 + n / 64 % 64, 128 + n % 64]
    else [240 + n / 262144, 128 + n / 4096 % 64, 128 + n / 64 % 64, 128 + n % 64]

/-- `Auth.hashPassword`: SHA-256 of the UTF-8 bytes, rendered as lowercase hex. -/
def hashPassword (password : String) : String :=
  String.mk ((digestBytes (sha256 (utf8Bytes password))).flatMap byteHex)

/-! ### Token generation (`Auth.generateToken`) -/

/-- The 62-character alphabet of `generateToken`. -/
def alphanumChars : List Char :=
  "ABCDEFGHIJKLMNOPQRSTUVWXYZabcdefghijklmnopqrstuvwxyz0123456789".data

/-- `Auth.generateToken`: one character per draw of the index oracle. -/
def generateToken (rand : Nat → Fin 62) (length : Nat := 32) : String :=
  String.mk ((List.range length).map fun i => alphanumChars.getD (rand i).val 'A')

/-! ### The four operations -/

/-- `Auth.login`. -/
def login (rand : Nat → Fin 62) (s : Auth) (email password : String) :
    Result × Auth :=
  match s.userTable.get email with
  | none => ({ success := false, error := some "Email does not exist" }, s)
  | some user =>
    if user.password ≠ hashPassword password then
      ({ success := false, error := some "Wrong password" }, s)
    else
      ({ success := true, token := some (generateToken rand),
         message := some "User logged in!" },
       { s with sessionTable := s.sessionTable.set email ⟨generateToken rand, true⟩ })

/-- `Auth.signup`. -/
def signup (s : Auth) (name email password adminEmail : String) :
    Result × Auth :=
  match s.userTable.get adminEmail with
  | none => ({ success := false, error := some "Admin does not exist" }, s)
  | some admin =>
    if admin.role ≠ "ADMIN" then
      ({ success := false, error := some "You are not authorized to do that!" }, s)
    else if s.userTable.has email then
      ({ success := false, error := some "User with this email already exists" }, s)
    else
      ({ success := true, message := some "User created", email := some email,
         data := some ⟨name, hashPassword password, "USER"⟩ },
       { s with userTable :=
          s.userTable.set email ⟨name, hashPassword password, "USER"⟩ })

/-- `Auth.changePassword`. -/
def changePassword (s : Auth) (email oldPass newPass : String) :
    Result × Auth :=
  match s.userTable.get email with
  | none => ({ success := false, error := some "User does not exist" }, s)
  | some user =>
    if hashPassword oldPass ≠ user.password then
      ({ success := false, error := some "Old password does not match" }, s)
    else
      ({ success := true, message := some "Password updated successfully" },
       { s with userTable :=
          s.userTable.set email ⟨user.name, hashPassword newPass, user.role⟩ })

/-- `Auth.logout`: the in-place flag mutation becomes a `set` of the same key. -/
def logout (s : Auth) (email : String) : Result × Auth :=
  match s.sessionTable.get email with
  | none => ({ success := false, error := some "User is not logged in" }, s)
  | some loggedUser =>
    if ¬ loggedUser.loggedIn then
      ({ success := false, error := some "User is already logged out" }, s)
    else
      ({ success := true, message := some "User has been logged out" },
       { s with sessionTable := s.sessionTable.set email ⟨loggedUser.token, false⟩ })

/-! ### Reachability -/

/-- One step of the system: any of the four operations with any arguments. -/
inductive Step : Auth → Auth → Prop where
  | ofSignup (s : Auth) (name email password adminEmail : String) :
      Step s (signup s name email password adminEmail).2
  | ofLogin (rand : Nat → Fin 62) (s : Auth) (email password : String) :
      Step s (login rand s email password).2
  | ofChangePassword (s : Auth) (email oldPass newPass : String) :
      Step s (changePassword s email oldPass newPass).2
  | ofLogout (s : Auth) (email : String) :
      Step s (logout s email).2

/-- States reachable by any sequence of operations. -/
def Reachable : Auth → Auth → Prop := Relation.ReflTransGen Step

/-- Every key of `sessionTable` is also a key of `userTable`. -/
abbrev keysSub (s : Auth) : Prop :=
  ∀ p ∈ s.sessionTable, s.userTable.has p.1 = true

/-- Every stored user record carries role `ADMIN` or `USER`. -/
abbrev rolesOk (t : Table User) : Prop :=
  ∀ p ∈ t, p.2.role = "ADMIN" ∨ p.2.role = "USER"

/-- Every key of `sessionTable` resolves in `userTable` to a record whose
role is `ADMIN` or `USER`. -/
abbrev sessionsBacked (s : Auth) : Prop :=
  ∀ p ∈ s.sessionTable,
    (s.userTable.get p.1).map User.role = some "ADMIN" ∨
    (s.userTable.get p.1).map User.role = some "USER"

/-! ### Table lemmas -/

theorem Table.get_set_self {α : Type} (t : Table α) (k : String) (v : α) :
    (t.set k v).get k = some v := by
  induction t with
  | nil => simp [Table.set, Table.get]
  | cons p rest ih =>
      obtain ⟨k1, w⟩ := p
      by_cases h : k1 = k <;> simp [Table.set, Table.get, h, ih]

theorem Table.get_set_ne {α : Type} (t : Table α) (k key : String) (v : α)
    (h : key ≠ k) : (t.set k v).get key = t.get key := by
  induction t with
  | nil => simp [Table.set, Table.get, Ne.symm h]
  | cons p rest ih =>
      obtain ⟨k1, w⟩ := p
      by_cases h1 : k1 = k
      · subst h1
        simp [Table.set, Table.get, Ne.symm h]
      · by_cases h2 : k1 = key <;> simp [Table.set, Table.get, h1, h2, h, ih]

theorem Table.mem_set {α : Type} (t : Table α) (k : String) (v : α)
    (p : String × α) (hp : p ∈ t.set k v) : p = (k, v) ∨ p ∈ t := by
  induction t with
  | nil => simpa [Table.set] using hp
  | cons q rest ih =>
      obtain ⟨k1, w⟩ := q
      by_cases h : k1 = k
      · simp only [Table.set, if_pos h, List.mem_cons] at hp
        rcases hp with h1 | h1
        · exact Or.inl h1
        · exact Or.inr (List.mem_cons_of_mem _ h1)
      · simp only [Table.set, if_neg h, List.mem_cons] at hp
        rcases hp with h1 | h1
        · exact Or.inr (by simp [h1])
        · rcases ih h1 with h2 | h2
          · exact Or.inl h2
          · exact Or.inr (List.mem_cons_of_mem _ h2)

theorem Table.get_mem {α : Type} (t : Table α) (k : String) (v : α)
    (h : t.get k = some v) : (k, v) ∈ t := by
  induction t with
  | nil => simp [Table.get] at h
  | cons q rest ih =>
      obtain ⟨k1, w⟩ := q
      by_cases h1 : k1 = k
      · subst h1
        simp only [Table.get, if_pos, Option.some.injEq] at h
        subst h
        exact List.mem_cons_self _ _
      · simp only [Table.get, if_neg h1] at h
        exact List.mem_cons_of_mem _ (ih h)

theorem Table.has_iff_get {α : Type} (t : Table α) (k : String) :
    t.has k = true ↔ ∃ v, t.get k = some v := by
  simp [Table.has, Option.isSome_iff_exists]

/-! ### Hex-rendering and token lemmas -/

theorem flatMap_byteHex_length (l : List Nat) :
    (l.flatMap byteHex).length = 2 * l.length := by
  induction l with
  | nil => rfl
  | cons b rest ih =>
      simp only [List.flatMap_cons, List.length_append, List.length_cons, ih, byteHex,
        List.length_nil]
      omega

theorem digestBytes_length (st : Hash8) : (digestBytes st).length = 32 := rfl

theorem hexDigit_mem_of_lt (n : Nat) (h : n < 16) :
    hexDigit n ∈ "0123456789abcdef".data := by
  interval_cases n <;> decide

theorem mem_hashPassword_hex (p : String) (c : Char)
    (hc : c ∈ (hashPassword p).data) : c ∈ "0123456789abcdef".data := by
  have hdata : (hashPassword p).data
      = (digestBytes (sha256 (utf8Bytes p))).flatMap byteHex := rfl
  rw [hdata, List.mem_flatMap] at hc
  obtain ⟨b, _, hcb⟩ := hc
  simp only [byteHex, List.mem_cons, List.not_mem_nil, or_false] at hcb
  rcases hcb with h1 | h1 <;> subst h1 <;>
    exact hexDigit_mem_of_lt _ (Nat.mod_lt _ (by norm_num))

theorem hashPassword_length (p : String) : (hashPassword p).length = 64 := by
  have : (hashPassword p).length
      = ((digestBytes (sha256 (utf8Bytes p))).flatMap byteHex).length := rfl
  rw [this, flatMap_byteHex_length, digestBytes_length]

theorem alphanum_getD_mem (j : Fin 62) :
    alphanumChars.getD j.val 'A' ∈ alphanumChars := by
  have hlen : alphanumChars.length = 62 := rfl
  rw [List.getD_eq_getElem?_getD, List.getElem?_eq_getElem (by rw [hlen]; exact j.isLt)]
  exact List.getElem_mem _

theorem generateToken_length (rand : Nat → Fin 62) (n : Nat) :
    (generateToken rand n).length = n := by
  simp [generateToken, String.length]

theorem mem_generateToken (rand : Nat → Fin 62) (n : Nat) (c : Char)
    (hc : c ∈ (generateToken rand n).data) : c ∈ alphanumChars := by
  have hdata : (generateToken rand n).data
      = (List.range n).map fun i => alphanumChars.getD (rand i).val 'A' := rfl
  rw [hdata, List.mem_map] at hc
  obtain ⟨i, _, hci⟩ := hc
  subst hci
  exact alphanum_getD_mem (rand i)

/-! ### Operation characterization helpers -/

theorem signup_success_state (s : Auth) (n e p a : String) (r : Result) (s1 : Auth)
    (h : signup s n e p a = (r, s1)) (hs : r.success = true) :
    (∃ admin, s.userTable.get a = some admin ∧ admin.role = "ADMIN") ∧
    s.userTable.has e = false ∧
    r = { success := true, message := some "User created", email := some e,
          data := some ⟨n, hashPassword p, "USER"⟩ } ∧
    s1 = { userTable := s.userTable.set e ⟨n, hashPassword p, "USER"⟩,
           sessionTable := s.sessionTable } := by
  rcases hget : s.userTable.get a with _ | admin
  · simp only [signup, hget, Prod.mk.injEq] at h
    obtain ⟨h1, h2⟩ := h
    subst h1
    simp at hs
  · by_cases hrole : admin.role = "ADMIN"
    · by_cases hhas : s.userTable.has e = true
      · simp [signup, hget, hrole, hhas, Prod.mk.injEq] at h
        obtain ⟨h1, h2⟩ := h
        subst h1
        simp at hs
      · simp [signup, hget, hrole, hhas, Prod.mk.injEq] at h
        obtain ⟨h1, h2⟩ := h
        subst h1
        subst h2
        exact ⟨⟨admin, rfl, hrole⟩, by simpa using hhas, rfl, rfl⟩
    · simp [signup, hget, hrole, Prod.mk.injEq] at h
      obtain ⟨h1, h2⟩ := h
      subst h1
      simp at hs

theorem signup_failure_state (s : Auth) (n e p a : String) (r : Result) (s1 : Auth)
    (h : signup s n e p a = (r, s1)) (hs : r.success = false) : s1 = s := by
  rcases hget : s.userTable.get a with _ | admin
  · simp only [signup, hget, Prod.mk.injEq] at h
    exact h.2.symm
  · by_cases hrole : admin.role = "ADMIN"
    · by_cases hhas : s.userTable.has e = true
      · simp [signup, hget, hrole, hhas, Prod.mk.injEq] at h
        exact h.2.symm
      · simp [signup, hget, hrole, hhas, Prod.mk.injEq] at h
        obtain ⟨h1, h2⟩ := h
        subst h1
        simp at hs
    · simp [signup, hget, hrole, Prod.mk.injEq] at h
      exact h.2.symm

theorem login_success_state (rand : Nat → Fin 62) (s : Auth) (e p : String)
    (r : Result) (s1 : Auth)
    (h : login rand s e p = (r, s1)) (hs : r.success = true) :
    (∃ user, s.userTable.get e = some user ∧ user.password = hashPassword p) ∧
    r = { success := true, token := some (generateToken rand),
          message := some "User logged in!" } ∧
    s1 = { userTable := s.userTable,
           sessionTable := s.sessionTable.set e ⟨generateToken rand, true⟩ } := by
  rcases hget : s.userTable.get e with _ | user
  · simp only [login, hget, Prod.mk.injEq] at h
    obtain ⟨h1, h2⟩ := h
    subst h1
    simp at hs
  · by_cases hpw : user.password = hashPassword p
    · simp [login, hget, hpw, Prod.mk.injEq] at h
      obtain ⟨h1, h2⟩ := h
      subst h1
      subst h2
      exact ⟨⟨user, rfl, hpw⟩, rfl, rfl⟩
    · simp [login, hget, hpw, Prod.mk.injEq] at h
      obtain ⟨h1, h2⟩ := h
      subst h1
      simp at hs

theorem login_failure_state (rand : Nat → Fin 62) (s : Auth) (e p : String)
    (r : Result) (s1 : Auth)
    (h : login rand s e p = (r, s1)) (hs : r.success = false) : s1 = s := by
  rcases hget : s.userTable.get e with _ | user
  · simp only [login, hget, Prod.mk.injEq] at h
    exact h.2.symm
  · by_cases hpw : user.password = hashPassword p
    · simp [login, hget, hpw, Prod.mk.injEq] at h
      obtain ⟨h1, h2⟩ := h
      subst h1
      simp at hs
    · simp [login, hget, hpw, Prod.mk.injEq] at h
      exact h.2.symm

theorem changePassword_success_state (s : Auth) (e op np : String)
    (r : Result) (s1 : Auth)
    (h : changePassword s e op np = (r, s1)) (hs : r.success = true) :
    ∃ user, s.userTable.get e = some user ∧ hashPassword op = user.password ∧
      r = { success := true, message := some "Password updated successfully" } ∧
      s1 = { userTable := s.userTable.set e ⟨user.name, hashPassword np, user.role⟩,
             sessionTable := s.sessionTable } := by
  rcases hget : s.userTable.get e with _ | user
  · simp only [changePassword, hget, Prod.mk.injEq] at h
    obtain ⟨h1, h2⟩ := h
    subst h1
    simp at hs
  · by_cases hpw : hashPassword op = user.password
    · simp [changePassword, hget, hpw, Prod.mk.injEq] at h
      obtain ⟨h1, h2⟩ := h
      subst h1
      subst h2
      exact ⟨user, rfl, hpw, rfl, rfl⟩
    · simp [changePassword, hget, hpw, Prod.mk.injEq] at h
      obtain ⟨h1, h2⟩ := h
      subst h1
      simp at hs

theorem changePassword_failure_state (s : Auth) (e op np : String)
    (r : Result) (s1 : Auth)
    (h : changePassword s e op np = (r, s1)) (hs : r.success = false) : s1 = s := by
  rcases hget : s.userTable.get e with _ | user
  · simp only [changePassword, hget, Prod.mk.injEq] at h
    exact h.2.symm
  · by_cases hpw : hashPassword op = user.password
    · simp [changePassword, hget, hpw, Prod.mk.injEq] at h
      obtain ⟨h1, h2⟩ := h
      subst h1
      simp at hs
    · simp [changePassword, hget, hpw, Prod.mk.injEq] at h
      exact h.2.symm

theorem logout_success_state (s : Auth) (e : String) (r : Result) (s1 : Auth)
    (h : logout s e = (r, s1)) (hs : r.success = true) :
    ∃ sess, s.sessionTable.get e = some sess ∧ sess.loggedIn = true ∧
      r = { success := true, message := some "User has been logged out" } ∧
      s1 = { userTable := s.userTable,
             sessionTable := s.sessionTable.set e ⟨sess.token, false⟩ } := by
  rcases hget : s.sessionTable.get e with _ | sess
  · simp only [logout, hget, Prod.mk.injEq] at h
    obtain ⟨h1, h2⟩ := h
    subst h1
    simp at hs
  · by_cases hin : sess.loggedIn = true
    · simp [logout, hget, hin, Prod.mk.injEq] at h
      obtain ⟨h1, h2⟩ := h
      subst h1
      subst h2
      exact ⟨sess, rfl, hin, rfl, rfl⟩
    · simp [logout, hget, hin, Prod.mk.injEq] at h
      obtain ⟨h1, h2⟩ := h
      subst h1
      simp at hs

theorem logout_failure_state (s : Auth) (e : String) (r : Result) (s1 : Auth)
    (h : logout s e = (r, s1)) (hs : r.success = false) : s1 = s := by
  rcases hget : s.sessionTable.get e with _ | sess
  · simp only [logout, hget, Prod.mk.injEq] at h
    exact h.2.symm
  · by_cases hin : sess.loggedIn = true
    · simp [logout, hget, hin, Prod.mk.injEq] at h
      obtain ⟨h1, h2⟩ := h
      subst h1
      simp at hs
    · simp [logout, hget, hin, Prod.mk.injEq] at h
      exact h.2.symm

/-! ### Invariant preservation -/

theorem rolesOk_set (t : Table User) (k : String) (u : User)
    (ht : rolesOk t) (hu : u.role = "ADMIN" ∨ u.role = "USER") :
    rolesOk (t.set k u) := by
  intro p hp
  rcases Table.mem_set t k u p hp with h | h
  · subst h
    exact hu
  · exact ht p h

theorem sessionsBacked_set_user (s : Auth) (e : String) (u : User)
    (hs : sessionsBacked s) (hu : u.role = "ADMIN" ∨ u.role = "USER") :
    sessionsBacked ⟨s.userTable.set e u, s.sessionTable⟩ := by
  intro p hp
  by_cases he : p.1 = e
  · rw [he, Table.get_set_self]
    rcases hu with h | h <;> simp [h]
  · rw [Table.get_set_ne _ _ _ _ he]
    exact hs p hp

theorem sessionsBacked_set_session (s : Auth) (e : String) (x : Session)
    (hs : sessionsBacked s)
    (he : (s.userTable.get e).map User.role = some "ADMIN" ∨
          (s.userTable.get e).map User.role = some "USER") :
    sessionsBacked ⟨s.userTable, s.sessionTable.set e x⟩ := by
  intro p hp
  rcases Table.mem_set _ _ _ p hp with h | h
  · subst h
    exact he
  · exact hs p h

theorem sessionsBacked_of_keysSub (s : Auth) (hk : keysSub s)
    (hr : rolesOk s.userTable) : sessionsBacked s := by
  intro p hp
  obtain ⟨v, hv⟩ := (Table.has_iff_get _ _).1 (hk p hp)
  have hrole := hr (p.1, v) (Table.get_mem _ _ _ hv)
  rw [hv]
  rcases hrole with h | h
  · exact Or.inl (by simp [show v.role = "ADMIN" from h])
  · exact Or.inr (by simp [show v.role = "USER" from h])

theorem backing_of_get (s : Auth) (e : String) (u : User)
    (hget : s.userTable.get e = some u) (hr : rolesOk s.userTable) :
    (s.userTable.get e).map User.role = some "ADMIN" ∨
    (s.userTable.get e).map User.role = some "USER" := by
  have hrole := hr (e, u) (Table.get_mem _ _ _ hget)
  rw [hget]
  rcases hrole with h | h
  · exact Or.inl (by simp [show u.role = "ADMIN" from h])
  · exact Or.inr (by simp [show u.role = "USER" from h])

theorem step_preserves_inv (s s1 : Auth) (hstep : Step s s1)
    (hinv : rolesOk s.userTable ∧ sessionsBacked s) :
    rolesOk s1.userTable ∧ sessionsBacked s1 := by
  obtain ⟨hroles, hsb⟩ := hinv
  cases hstep with
  | ofSignup s n e p a =>
      rcases hop : signup s n e p a with ⟨r, s2⟩
      by_cases hsucc : r.success = true
      · obtain ⟨_, _, _, hs1⟩ := signup_success_state s n e p a r s2 hop hsucc
        subst hs1
        exact ⟨rolesOk_set _ _ _ hroles (Or.inr rfl),
               sessionsBacked_set_user s e _ hsb (Or.inr rfl)⟩
      · rw [show (r, s2).2 = s from
             signup_failure_state s n e p a r s2 hop (by simpa using hsucc)]
        exact ⟨hroles, hsb⟩
  | ofLogin rand s e p =>
      rcases hop : login rand s e p with ⟨r, s2⟩
      by_cases hsucc : r.success = true
      · obtain ⟨⟨user, huser, _⟩, _, hs1⟩ :=
          login_success_state rand s e p r s2 hop hsucc
        subst hs1
        exact ⟨hroles,
               sessionsBacked_set_session s e _ hsb
                 (backing_of_get s e user huser hroles)⟩
      · rw [show (r, s2).2 = s from
             login_failure_state rand s e p r s2 hop (by simpa using hsucc)]
        exact ⟨hroles, hsb⟩
  | ofChangePassword s e op np =>
      rcases hop : changePassword s e op np with ⟨r, s2⟩
      by_cases hsucc : r.success = true
      · obtain ⟨user, huser, _, _, hs1⟩ :=
          changePassword_success_state s e op np r s2 hop hsucc
        have hrole := hroles (e, user) (Table.get_mem _ _ _ huser)
        subst hs1
        exact ⟨rolesOk_set _ _ _ hroles hrole,
               sessionsBacked_set_user s e _ hsb hrole⟩
      · rw [show (r, s2).2 = s from
             changePassword_failure_state s e op np r s2 hop (by simpa using hsucc)]
        exact ⟨hroles, hsb⟩
  | ofLogout s e =>
      rcases hop : logout s e with ⟨r, s2⟩
      by_cases hsucc : r.success = true
      · obtain ⟨sess, hsess, _, _, hs1⟩ := logout_success_state s e r s2 hop hsucc
        subst hs1
        exact ⟨hroles,
               sessionsBacked_set_session s e _ hsb
                 (hsb (e, sess) (Table.get_mem _ _ _ hsess))⟩
      · rw [show (r, s2).2 = s from
             logout_failure_state s e r s2 hop (by simpa using hsucc)]
        exact ⟨hroles, hsb⟩

theorem reachable_preserves_inv (s0 s : Auth)
    (h0 : rolesOk s0.userTable ∧ sessionsBacked s0) (hreach : Reachable s0 s) :
    rolesOk s.userTable ∧ sessionsBacked s := by
  induction hreach with
  | refl => exact h0
  | tail _ hstep ih => exact step_preserves_inv _ _ hstep ih

/-! ### Claims -/

set_option maxRecDepth 40000

/-- C1: `signup` evaluates its checks in order, first failing check winning:
missing admin fails with the admin-not-found error; a non-`ADMIN` admin record
fails with the not-authorized error; an already-registered target email fails
with the duplicate-user error; otherwise it succeeds, inserts
`⟨name, hashPassword password, "USER"⟩` under `email`, and leaves the session
table unchanged (no session record is created). -/
theorem signup_checks_in_order (s : Auth) (name email password adminEmail : String) :
    (s.userTable.get adminEmail = none →
      signup s name email password adminEmail =
        ({ success := false, error := some "Admin does not exist" }, s)) ∧
    (∀ admin, s.userTable.get adminEmail = some admin → admin.role ≠ "ADMIN" →
      signup s name email password adminEmail =
        ({ success := false, error := some "You are not authorized to do that!" }, s)) ∧
    (∀ admin, s.userTable.get adminEmail = some admin → admin.role = "ADMIN" →
      s.userTable.has email = true →
      signup s name email password adminEmail =
        ({ success := false, error := some "User with this email already exists" }, s)) ∧
    (∀ admin, s.userTable.get adminEmail = some admin → admin.role = "ADMIN" →
      s.userTable.has email = false →
      signup s name email password adminEmail =
        ({ success := true, message := some "User created", email := some email,
           data := some ⟨name, hashPassword password, "USER"⟩ },
         { userTable := s.userTable.set email ⟨name, hashPassword password, "USER"⟩,
           sessionTable := s.sessionTable })) := by
  refine ⟨fun hget => ?_, fun admin hget hrole => ?_,
          fun admin hget hrole hhas => ?_, fun admin hget hrole hhas => ?_⟩
  · simp [signup, hget]
  · simp [signup, hget, hrole]
  · simp [signup, hget, hrole, hhas]
  · simp [signup, hget, hrole, hhas]

/-- Witness for C1: all four branches of `signup` exercised on concrete states. -/
theorem signup_checks_in_order_witness :
    signup ⟨[], []⟩ "J" "j@x" "pw" "a@x" =
      ({ success := false, error := some "Admin does not exist" }, (⟨[], []⟩ : Auth)) ∧
    signup ⟨[("a@x", ⟨"A", "h", "USER"⟩)], []⟩ "J" "j@x" "pw" "a@x" =
      ({ success := false, error := some "You are not authorized to do that!" },
       (⟨[("a@x", ⟨"A", "h", "USER"⟩)], []⟩ : Auth)) ∧
    signup ⟨[("a@x", ⟨"A", "h", "ADMIN"⟩), ("j@x", ⟨"J", "h2", "USER"⟩)], []⟩
        "J" "j@x" "pw" "a@x" =
      ({ success := false, error := some "User with this email already exists" },
       (⟨[("a@x", ⟨"A", "h", "ADMIN"⟩), ("j@x", ⟨"J", "h2", "USER"⟩)], []⟩ : Auth)) ∧
    signup ⟨[("a@x", ⟨"A", "h", "ADMIN"⟩)], []⟩ "J" "j@x" "pw" "a@x" =
      ({ success := true, message := some "User created", email := some "j@x",
         data := some ⟨"J", hashPassword "pw", "USER"⟩ },
       { userTable := Table.set [("a@x", ⟨"A", "h", "ADMIN"⟩)] "j@x"
           ⟨"J", hashPassword "pw", "USER"⟩,
         sessionTable := [] }) :=
  ⟨(signup_checks_in_order ⟨[], []⟩ "J" "j@x" "pw" "a@x").1 rfl,
   (signup_checks_in_order _ "J" "j@x" "pw" "a@x").2.1 ⟨"A", "h", "USER"⟩ rfl
     (by decide),
   (signup_checks_in_order _ "J" "j@x" "pw" "a@x").2.2.1 ⟨"A", "h", "ADMIN"⟩ rfl rfl
     (by decide),
   (signup_checks_in_order _ "J" "j@x" "pw" "a@x").2.2.2 ⟨"A", "h", "ADMIN"⟩ rfl rfl
     (by decide)⟩

/-- C2: whenever any of the four operations returns a failure result, the
successor state equals the original state: no partial writes on error paths. -/
theorem failed_ops_preserve_state :
    (∀ s name email password adminEmail r s1,
       signup s name email password adminEmail = (r, s1) →
       r.success = false → s1 = s) ∧
    (∀ rand s email password r s1,
       login rand s email password = (r, s1) → r.success = false → s1 = s) ∧
    (∀ s email oldPass newPass r s1,
       changePassword s email oldPass newPass = (r, s1) →
       r.success = false → s1 = s) ∧
    (∀ s email r s1, logout s email = (r, s1) → r.success = false → s1 = s) :=
  ⟨signup_failure_state, login_failure_state, changePassword_failure_state,
   logout_failure_state⟩

/-- Witness for C2: a concrete failing call of each operation leaves the
empty state unchanged. -/
theorem failed_ops_preserve_state_witness :
    (signup ⟨[], []⟩ "J" "j@x" "pw" "a@x").2 = (⟨[], []⟩ : Auth) ∧
    (login (fun _ => (0 : Fin 62)) ⟨[], []⟩ "j@x" "pw").2 = (⟨[], []⟩ : Auth) ∧
    (changePassword ⟨[], []⟩ "j@x" "pw" "pw2").2 = (⟨[], []⟩ : Auth) ∧
    (logout ⟨[], []⟩ "j@x").2 = (⟨[], []⟩ : Auth) :=
  ⟨failed_ops_preserve_state.1 ⟨[], []⟩ "J" "j@x" "pw" "a@x" _ _ rfl (by decide),
   failed_ops_preserve_state.2.1 (fun _ => (0 : Fin 62)) ⟨[], []⟩ "j@x" "pw" _ _
     rfl (by decide),
   failed_ops_preserve_state.2.2.1 ⟨[], []⟩ "j@x" "pw" "pw2" _ _ rfl (by decide),
   failed_ops_preserve_state.2.2.2 ⟨[], []⟩ "j@x" _ _ rfl (by decide)⟩

/-- C8: `hashPassword` is deterministic and always yields a string of
exactly 64 characters drawn from the lowercase hexadecimal alphabet. -/
theorem hashPassword_deterministic_hex (p : String) :
    hashPassword p = hashPassword p ∧
    (hashPassword p).length = 64 ∧
    ∀ c ∈ (hashPassword p).data, c ∈ "0123456789abcdef".data :=
  ⟨rfl, hashPassword_length p, mem_hashPassword_hex p⟩

/-- Witness for C8: the digest of `"a"` has length 64 and its first
character is a lowercase hex character. -/
theorem hashPassword_deterministic_hex_witness :
    (hashPassword "a").length = 64 ∧ 'c' ∈ "0123456789abcdef".data :=
  ⟨(hashPassword_deterministic_hex "a").2.1,
   (hashPassword_deterministic_hex "a").2.2 'c' (by decide)⟩

/-- C10 (implicit): a successful `signup` returns in its `data` field the
complete stored `User` record, password hash included. -/
theorem signup_exposes_password_hash (s : Auth) (n e p a : String) (r : Result)
    (s1 : Auth) (h : signup s n e p a = (r, s1)) (hs : r.success = true) :
    r.data = some ⟨n, hashPassword p, "USER"⟩ ∧
    s1.userTable.get e = some ⟨n, hashPassword p, "USER"⟩ ∧
    r.data.map User.password = some (hashPassword p) := by
  obtain ⟨_, _, hr, hs1⟩ := signup_success_state s n e p a r s1 h hs
  subst hr
  subst hs1
  exact ⟨rfl, Table.get_set_self _ _ _, rfl⟩

/-- Witness for C10: a concrete successful signup returns the stored record
with its password hash. -/
theorem signup_exposes_password_hash_witness :
    ((signup ⟨[("a@x", ⟨"A", "h", "ADMIN"⟩)], []⟩ "J" "j@x" "pw" "a@x").1).data =
      some ⟨"J", hashPassword "pw", "USER"⟩ ∧
    ((signup ⟨[("a@x", ⟨"A", "h", "ADMIN"⟩)], []⟩ "J" "j@x" "pw" "a@x").2).userTable.get
        "j@x" = some ⟨"J", hashPassword "pw", "USER"⟩ ∧
    ((signup ⟨[("a@x", ⟨"A", "h", "ADMIN"⟩)], []⟩ "J" "j@x" "pw" "a@x").1).data.map
        User.password = some (hashPassword "pw") :=
  signup_exposes_password_hash ⟨[("a@x", ⟨"A", "h", "ADMIN"⟩)], []⟩
    "J" "j@x" "pw" "a@x" _ _ rfl (by decide)

/-- C3: after a successful signup with password `P`, `login` with `P` succeeds
and returns a 32-character token drawn from the 62-character alphanumeric
alphabet, and `login` with `P ++ "x"` fails with the wrong-password error.
The hypothesis that the two digests differ is the collision-freeness of the
hash at this pair of inputs, which the spec assumes of the cryptographic
digest. -/
theorem signup_login_roundtrip (rand : Nat → Fin 62) (s : Auth)
    (n e P a : String) (r : Result) (s1 : Auth)
    (h : signup s n e P a = (r, s1)) (hs : r.success = true)
    (hcoll : hashPassword P ≠ hashPassword (P ++ "x")) :
    ((login rand s1 e P).1.success = true ∧
     ∃ t, (login rand s1 e P).1.token = some t ∧ t.length = 32 ∧
       ∀ c ∈ t.data, c ∈ alphanumChars) ∧
    (login rand s1 e (P ++ "x")).1 =
      { success := false, error := some "Wrong password" } := by
  obtain ⟨_, _, _, hs1⟩ := signup_success_state s n e P a r s1 h hs
  subst hs1
  have hget : Table.get (s.userTable.set e ⟨n, hashPassword P, "USER"⟩) e =
      some ⟨n, hashPassword P, "USER"⟩ := Table.get_set_self _ _ _
  refine ⟨⟨?_, generateToken rand, ?_, generateToken_length rand 32,
           fun c hc => mem_generateToken rand 32 c hc⟩, ?_⟩
  · simp [login, hget]
  · simp [login, hget]
  · simp [login, hget, hcoll]

/-- Witness for C3: concrete signup of `"j@x"` with password `"pw"`, then
login with `"pw"` (success, token shape) and with `"pwx"` (wrong password). -/
theorem signup_login_roundtrip_witness :
    ((login (fun _ => (0 : Fin 62))
        (signup ⟨[("a@x", ⟨"A", "h", "ADMIN"⟩)], []⟩ "J" "j@x" "pw" "a@x").2
        "j@x" "pw").1.success = true ∧
     ∃ t, (login (fun _ => (0 : Fin 62))
        (signup ⟨[("a@x", ⟨"A", "h", "ADMIN"⟩)], []⟩ "J" "j@x" "pw" "a@x").2
        "j@x" "pw").1.token = some t ∧ t.length = 32 ∧
       ∀ c ∈ t.data, c ∈ alphanumChars) ∧
    (login (fun _ => (0 : Fin 62))
        (signup ⟨[("a@x", ⟨"A", "h", "ADMIN"⟩)], []⟩ "J" "j@x" "pw" "a@x").2
        "j@x" "pwx").1 =
      { success := false, error := some "Wrong password" } :=
  signup_login_roundtrip (fun _ => (0 : Fin 62)) ⟨[("a@x", ⟨"A", "h", "ADMIN"⟩)], []⟩
    "J" "j@x" "pw" "a@x" _ _ rfl (by decide) (by decide)

/-- C4 fails as stated: with `old = new`, `changePassword` succeeds and the
subsequent `login` with the old password still succeeds instead of failing
with the wrong-password error. -/
theorem changePassword_old_login_counterexample :
    (changePassword ⟨[("j@x", ⟨"J", hashPassword "pw", "USER"⟩)], []⟩
        "j@x" "pw" "pw").1.success = true ∧
    (login (fun _ => (0 : Fin 62))
        (changePassword ⟨[("j@x", ⟨"J", hashPassword "pw", "USER"⟩)], []⟩
          "j@x" "pw" "pw").2
        "j@x" "pw").1.success = true := by
  constructor
  · decide
  · decide

/-- C4 (amended): provided `hashPassword old ≠ hashPassword new` (in
particular `old ≠ new` with no digest collision), after a successful
`changePassword`, login with the old password fails with the wrong-password
error and login with the new password succeeds. -/
theorem changePassword_invalidates_old (rand : Nat → Fin 62) (s : Auth)
    (e oldP newP : String) (r : Result) (s1 : Auth)
    (h : changePassword s e oldP newP = (r, s1)) (hs : r.success = true)
    (hdiff : hashPassword oldP ≠ hashPassword newP) :
    (login rand s1 e oldP).1 =
      { success := false, error := some "Wrong password" } ∧
    (login rand s1 e newP).1.success = true := by
  obtain ⟨user, huser, _, _, hs1⟩ :=
    changePassword_success_state s e oldP newP r s1 h hs
  subst hs1
  have hget : Table.get
      (s.userTable.set e ⟨user.name, hashPassword newP, user.role⟩) e =
      some ⟨user.name, hashPassword newP, user.role⟩ := Table.get_set_self _ _ _
  constructor
  · simp [login, hget, Ne.symm hdiff]
  · simp [login, hget]

/-- Witness for C4 (amended): concrete password change from `"pw"` to
`"pw2"`, then the two logins. -/
theorem changePassword_invalidates_old_witness :
    (login (fun _ => (0 : Fin 62))
        (changePassword ⟨[("j@x", ⟨"J", hashPassword "pw", "USER"⟩)], []⟩
          "j@x" "pw" "pw2").2
        "j@x" "pw").1 =
      { success := false, error := some "Wrong password" } ∧
    (login (fun _ => (0 : Fin 62))
        (changePassword ⟨[("j@x", ⟨"J", hashPassword "pw", "USER"⟩)], []⟩
          "j@x" "pw" "pw2").2
        "j@x" "pw2").1.success = true :=
  changePassword_invalidates_old (fun _ => (0 : Fin 62))
    ⟨[("j@x", ⟨"J", hashPassword "pw", "USER"⟩)], []⟩
    "j@x" "pw" "pw2" _ _ rfl (by decide) (by decide)

/-- C5: `logout` fails with the not-logged-in error when no session record
exists, fails with the already-logged-out error when the record's flag is
false, and on success rewrites the record in place to the same token with
`loggedIn = false` without removing it, so an immediate second `logout`
fails with the already-logged-out error. -/
theorem logout_semantics (s : Auth) (e : String) :
    (s.sessionTable.get e = none →
      logout s e = ({ success := false, error := some "User is not logged in" }, s)) ∧
    (∀ sess, s.sessionTable.get e = some sess → sess.loggedIn = false →
      logout s e =
        ({ success := false, error := some "User is already logged out" }, s)) ∧
    (∀ sess, s.sessionTable.get e = some sess → sess.loggedIn = true →
      logout s e =
        ({ success := true, message := some "User has been logged out" },
         { userTable := s.userTable,
           sessionTable := s.sessionTable.set e ⟨sess.token, false⟩ }) ∧
      (logout s e).2.sessionTable.get e = some ⟨sess.token, false⟩ ∧
      (logout (logout s e).2 e).1 =
        { success := false, error := some "User is already logged out" }) := by
  refine ⟨fun hget => ?_, fun sess hget hin => ?_, fun sess hget hin => ?_⟩
  · simp [logout, hget]
  · simp [logout, hget, hin]
  · have h1 : logout s e =
        ({ success := true, message := some "User has been logged out" },
         { userTable := s.userTable,
           sessionTable := s.sessionTable.set e ⟨sess.token, false⟩ }) := by
      simp [logout, hget, hin]
    refine ⟨h1, ?_, ?_⟩
    · rw [h1]
      exact Table.get_set_self _ _ _
    · rw [h1]
      simp [logout, Table.get_set_self]

/-- Witness for C5: the three branches of `logout` on concrete session
states, with the double-logout consequence. -/
theorem logout_semantics_witness :
    logout ⟨[], []⟩ "j@x" =
      ({ success := false, error := some "User is not logged in" }, (⟨[], []⟩ : Auth)) ∧
    logout ⟨[], [("j@x", ⟨"T", false⟩)]⟩ "j@x" =
      ({ success := false, error := some "User is already logged out" },
       (⟨[], [("j@x", ⟨"T", false⟩)]⟩ : Auth)) ∧
    (logout ⟨[], [("j@x", ⟨"T", true⟩)]⟩ "j@x" =
      ({ success := true, message := some "User has been logged out" },
       { userTable := [],
         sessionTable := Table.set [("j@x", ⟨"T", true⟩)] "j@x" ⟨"T", false⟩ }) ∧
     (logout ⟨[], [("j@x", ⟨"T", true⟩)]⟩ "j@x").2.sessionTable.get "j@x" =
        some ⟨"T", false⟩ ∧
     (logout (logout ⟨[], [("j@x", ⟨"T", true⟩)]⟩ "j@x").2 "j@x").1 =
        { success := false, error := some "User is already logged out" }) :=
  ⟨(logout_semantics ⟨[], []⟩ "j@x").1 rfl,
   (logout_semantics ⟨[], [("j@x", ⟨"T", false⟩)]⟩ "j@x").2.1 ⟨"T", false⟩ rfl rfl,
   (logout_semantics ⟨[], [("j@x", ⟨"T", true⟩)]⟩ "j@x").2.2 ⟨"T", true⟩ rfl rfl⟩

/-- C6: a successful `changePassword` replaces the user record under `email`
with one holding `hashPassword newPassword` and the same name and role, leaves
every other user entry unchanged, and leaves the session table entirely
untouched. -/
theorem changePassword_frame (s : Auth) (e oldP newP : String) (r : Result)
    (s1 : Auth) (h : changePassword s e oldP newP = (r, s1))
    (hs : r.success = true) :
    s1.sessionTable = s.sessionTable ∧
    ∀ u, s.userTable.get e = some u →
      s1.userTable = s.userTable.set e ⟨u.name, hashPassword newP, u.role⟩ ∧
      s1.userTable.get e = some ⟨u.name, hashPassword newP, u.role⟩ ∧
      ∀ e2, e2 ≠ e → s1.userTable.get e2 = s.userTable.get e2 := by
  obtain ⟨user, huser, _, _, hs1⟩ :=
    changePassword_success_state s e oldP newP r s1 h hs
  subst hs1
  refine ⟨rfl, fun u hu => ?_⟩
  rw [huser] at hu
  injection hu with hu
  subst hu
  exact ⟨rfl, Table.get_set_self _ _ _,
         fun e2 he2 => Table.get_set_ne _ _ _ _ he2⟩

/-- Witness for C6: a concrete password change with an active session; the
session record and the other user entry survive unchanged. -/
theorem changePassword_frame_witness :
    (changePassword
        ⟨[("j@x", ⟨"J", hashPassword "pw", "USER"⟩)], [("j@x", ⟨"T", true⟩)]⟩
        "j@x" "pw" "pw2").2.sessionTable = [("j@x", ⟨"T", true⟩)] ∧
    (changePassword
        ⟨[("j@x", ⟨"J", hashPassword "pw", "USER"⟩)], [("j@x", ⟨"T", true⟩)]⟩
        "j@x" "pw" "pw2").2.userTable =
      Table.set [("j@x", ⟨"J", hashPassword "pw", "USER"⟩)] "j@x"
        ⟨"J", hashPassword "pw2", "USER"⟩ ∧
    (changePassword
        ⟨[("j@x", ⟨"J", hashPassword "pw", "USER"⟩)], [("j@x", ⟨"T", true⟩)]⟩
        "j@x" "pw" "pw2").2.userTable.get "j@x" =
      some ⟨"J", hashPassword "pw2", "USER"⟩ := by
  have h := changePassword_frame
    ⟨[("j@x", ⟨"J", hashPassword "pw", "USER"⟩)], [("j@x", ⟨"T", true⟩)]⟩
    "j@x" "pw" "pw2" _ _ rfl (by decide)
  obtain ⟨hsess, hrec⟩ := h
  obtain ⟨h1, h2, _⟩ := hrec ⟨"J", hashPassword "pw", "USER"⟩ rfl
  exact ⟨hsess, h1, h2⟩

/-- C7 fails as stated: the initial state holding one user with role
`"ROOT"` and no sessions satisfies the stated initial condition (every
session key is a user key, vacuously), yet one `login` step reaches a state
whose session key resolves to a user whose role is neither `ADMIN` nor
`USER`. -/
theorem sessions_backed_counterexample :
    keysSub ⟨[("r@x", ⟨"R", hashPassword "p", "ROOT"⟩)], []⟩ ∧
    Reachable ⟨[("r@x", ⟨"R", hashPassword "p", "ROOT"⟩)], []⟩
      (login (fun _ => (0 : Fin 62))
        ⟨[("r@x", ⟨"R", hashPassword "p", "ROOT"⟩)], []⟩ "r@x" "p").2 ∧
    ¬ sessionsBacked
      (login (fun _ => (0 : Fin 62))
        ⟨[("r@x", ⟨"R", hashPassword "p", "ROOT"⟩)], []⟩ "r@x" "p").2 :=
  ⟨by decide, Relation.ReflTransGen.single (Step.ofLogin _ _ _ _), by decide⟩

/-- C7 (amended): from an initial state in which every session key is a user
key and every stored user record has role `ADMIN` or `USER` (as in the empty
or bootstrap-seeded state), every reachable state has each of its session
keys resolving in the user table to a record with role `ADMIN` or `USER`. -/
theorem sessions_backed_invariant (s0 s : Auth) (hk : keysSub s0)
    (hr : rolesOk s0.userTable) (hreach : Reachable s0 s) : sessionsBacked s :=
  (reachable_preserves_inv s0 s ⟨hr, sessionsBacked_of_keysSub s0 hk hr⟩ hreach).2

/-- Witness for C7 (amended): a bootstrap-seeded admin state, one successful
login step, and the invariant in the reached state. -/
theorem sessions_backed_invariant_witness :
    sessionsBacked
      (login (fun _ => (0 : Fin 62))
        ⟨[("a@x", ⟨"A", hashPassword "pw", "ADMIN"⟩)], []⟩ "a@x" "pw").2 :=
  sessions_backed_invariant ⟨[("a@x", ⟨"A", hashPassword "pw", "ADMIN"⟩)], []⟩ _
    (by decide) (by decide) (Relation.ReflTransGen.single (Step.ofLogin _ _ _ _))
